import Mathlib

/-!
Shallow embedding of the Electroverse client-side search-and-playback flow.

Sources embedded:
- `src/frontend/src/Player.jsx`: the `Player` component with its
  `performSearch` and `loadVideo` handlers and its authentication guard.
- `src/frontend/src/App.jsx`: the exported `App` component, which renders
  `Player` directly.
- `src/unnamed/part_000`: the standalone video surface with its `playPause`
  and `stopVideo` handlers.

JavaScript values flowing through the handlers are modelled by a small JSON
datatype; JS truthiness and the `||` operator are modelled explicitly, since
the error-surfacing logic relies on them.
-/

namespace Electroverse

/-- JSON values, as produced by `res.json()` (`JSON.parse` semantics). -/
inductive Json where
  | null : Json
  | bool : Bool → Json
  | num : Int → Json
  | str : String → Json
  | arr : List Json → Json
  | obj : List (String × Json) → Json

/-- JS truthiness of a parsed JSON value: `null`, `false`, `0` and `""` are
falsy; every array and object is truthy. -/
def jsTruthy : Json → Bool
  | .null => false
  | .bool b => b
  | .num n => !(n == 0)
  | .str s => !(s == "")
  | .arr _ => true
  | .obj _ => true

/-- The JS `a || b` operator on parsed JSON values: yields `a` when `a` is
truthy, `b` otherwise. -/
def jsOr (a b : Json) : Json := if jsTruthy a then a else b

/-- JS member access `j.k` on a parsed JSON value that is known not to be
`null` (access on `null` throws and is handled at the call site).  Missing
fields and access on primitives yield `undefined`, which behaves like `null`
for the `||` chains in the source, so it is rendered as `Json.null`.
`JSON.parse` keeps the last of duplicate keys. -/
def jsField (j : Json) (k : String) : Json :=
  match j with
  | .obj fs => (((fs.reverse).find? (fun p => p.1 == k)).map Prod.snd).getD .null
  | _ => .null

/-- The `query` state of `Player`: five string fields, all initially `''`.
Field declaration order matches the object literal in the source, which is
the `Object.entries` enumeration order. -/
structure SearchFilter where
  date : String
  start_time : String
  end_time : String
  camera_id : String
  plate : String

/-- The all-empty filter created at component mount. -/
def emptyFilter : SearchFilter := ⟨"", "", "", "", ""⟩

/-- `Object.entries(query)`: the five key/value pairs in insertion order. -/
def objectEntries (q : SearchFilter) : List (String × String) :=
  [("date", q.date), ("start_time", q.start_time), ("end_time", q.end_time),
   ("camera_id", q.camera_id), ("plate", q.plate)]

/-- The `URLSearchParams` built by `performSearch`:
`Object.entries(query).forEach(([k, v]) => { if (v) params.append(k, v); })`.
A string is truthy iff non-empty, so exactly the non-empty fields are
appended, in entry order. -/
def buildSearchParams (q : SearchFilter) : List (String × String) :=
  (objectEntries q).filter (fun p => !(p.2 == ""))

/-- The component state of `Player` touched by the handlers. -/
structure PlayerState where
  searchResults : List Json
  videoUrl : Option String
  query : SearchFilter

/-- The mount-time state: `useState([])`, `useState(null)`, all-empty query. -/
def initialState : PlayerState := ⟨[], none, emptyFilter⟩

/-- Outcome of the `/search` fetch as consumed by `performSearch`:
either a response with its `ok` flag split into the two constructors and the
body given as the result of JSON-parsing it (`none` when `res.json()`
throws), or a transport failure (`apiFetch` itself rejects). -/
inductive SearchResponse where
  | ok : Option Json → SearchResponse
  | err : Option Json → SearchResponse
  | networkFailure : SearchResponse

/-- `performSearch` from `Player.jsx`, for a given pre-state and fetch
outcome.  Returns the post-state and the list of `alert` arguments issued.

- `!res.ok`: `err = await res.json().catch(() => ({}))` then
  `alert(err.message || err.error || 'Search failed')`.  When the parsed
  body is JSON `null`, the member access `err.message` throws a `TypeError`
  inside the `try`, so the outer catch alerts `'Network error'`.
- `res.ok`: `data = await res.json()` — a parse failure propagates to the
  outer catch (`'Network error'`, state untouched); otherwise
  `setSearchResults(Array.isArray(data) ? data : [])`.
- transport failure: the outer catch alerts `'Network error'`. -/
def performSearch (st : PlayerState) (resp : SearchResponse) :
    PlayerState × List Json :=
  match resp with
  | .err body =>
      match body.getD (.obj []) with
      | .null => (st, [.str "Network error"])
      | e =>
          (st, [jsOr (jsOr (jsField e "message") (jsField e "error"))
                  (.str "Search failed")])
  | .ok none => (st, [.str "Network error"])
  | .ok (some j) =>
      match j with
      | .arr xs => ({ st with searchResults := xs }, [])
      | _ => ({ st with searchResults := [] }, [])
  | .networkFailure => (st, [.str "Network error"])

/-- Outcome of the `/video/decrypted/{video_id}` fetch as consumed by
`loadVideo`: a success carrying the object URL created from the blob, a
success whose body read (`res.blob()`) fails mid-stream, a non-success
response with its body read as text, or a transport failure. -/
inductive VideoResponse where
  | ok : String → VideoResponse
  | okBlobFail : VideoResponse
  | err : String → VideoResponse
  | networkFailure : VideoResponse

/-- `loadVideo` from `Player.jsx`, for a given pre-state and fetch outcome.
Returns the post-state and the list of `alert` arguments issued.

- `!res.ok`: `txt = await res.text(); alert(txt || 'Failed to load video')`.
- `res.ok`: `setVideoUrl(URL.createObjectURL(await res.blob()))`; a `blob()`
  failure propagates to the catch (`'Network error'`, state untouched).
- transport failure: the catch alerts `'Network error'`. -/
def loadVideo (st : PlayerState) (resp : VideoResponse) :
    PlayerState × List Json :=
  match resp with
  | .ok url => ({ st with videoUrl := some url }, [])
  | .okBlobFail => (st, [.str "Network error"])
  | .err txt =>
      (st, [if txt == "" then .str "Failed to load video" else .str txt])
  | .networkFailure => (st, [.str "Network error"])

/-- Rendered UI nodes relevant to the claims: the sign-in prompt returned by
the authentication guard, and the three pieces of the search/player surface.
A result-list node carries the `video_id` of each `Load` button it renders. -/
inductive UINode where
  | signInPrompt : UINode
  | searchForm : SearchFilter → UINode
  | resultList : List Json → UINode
  | videoPlayer : Option String → UINode

/-- The `AuthContext` value read by `Player`. -/
structure AuthIdentity where
  isAuthenticated : Bool
  user : Option String

/-- Rendering of `Player`: the guard
`if (!isAuthenticated) return <div>Please sign in to view videos.</div>`
short-circuits to the sign-in prompt; otherwise the search form, the result
list (one `Load` button per result, targeting `r.video_id`) and the player
card are rendered. -/
def renderPlayer (auth : AuthIdentity) (st : PlayerState) : List UINode :=
  if auth.isAuthenticated then
    [.searchForm st.query,
     .resultList (st.searchResults.map (fun r => jsField r "video_id")),
     .videoPlayer st.videoUrl]
  else
    [.signInPrompt]

/-- Rendering of the exported `App` component from `App.jsx`: it renders
`<Player/>` directly. -/
def renderApp (auth : AuthIdentity) (st : PlayerState) : List UINode :=
  renderPlayer auth st

/-- Whether a node is part of the search/player surface. -/
def isSearchSurface : UINode → Bool
  | .searchForm _ => true
  | .resultList _ => true
  | .videoPlayer _ => true
  | .signInPrompt => false

/-- The `video_id`s of all `Load` buttons in a rendered UI: the reachable
entry points of the playback-load operation. -/
def loadTargets (ui : List UINode) : List Json :=
  ui.flatMap (fun n => match n with | .resultList vs => vs | _ => [])

/-- The media element bound to the video surface of `src/unnamed/part_000`:
its `paused` flag, whether a playable source is bound, and its
`currentTime`. -/
structure MediaElement where
  paused : Bool
  hasSource : Bool
  currentTime : Nat

/-- Commands issued to the media element. -/
inductive MediaCmd where
  | play : MediaCmd
  | pause : MediaCmd

/-- Effect of `video.play()` on the element: with a bound source playback
starts (`paused` becomes `false`); without one the returned promise rejects
and the element stays paused. -/
def applyPlay (v : MediaElement) : MediaElement :=
  if v.hasSource then { v with paused := false } else v

/-- Effect of `video.pause()` on the element. -/
def applyPause (v : MediaElement) : MediaElement :=
  { v with paused := true }

/-- `playPause` from `src/unnamed/part_000`:
`if (video.paused) { video.play(); } else { video.pause(); }` — no guard on
whether a source is bound.  Returns the element after the handler together
with the commands issued to it. -/
def playPause (v : MediaElement) : MediaElement × List MediaCmd :=
  if v.paused then (applyPlay v, [.play]) else (applyPause v, [.pause])

/-- `stopVideo` from `src/unnamed/part_000`:
`video.pause(); video.currentTime = 0;`. -/
def stopVideo (v : MediaElement) : MediaElement × List MediaCmd :=
  ({ applyPause v with currentTime := 0 }, [.pause])

/-- The fixed field order of the query object. -/
def searchFieldOrder : List String :=
  ["date", "start_time", "end_time", "camera_id", "plate"]

/-- Claim C1: for every `SearchFilter`, the query parameters built by search
submission are exactly the non-empty fields and no others, their keys appear
in the fixed order date, start_time, end_time, camera_id, plate, and the
all-empty filter produces an empty parameter list (a valid broadest request,
not a client-side error). -/
theorem searchParams_exact_nonempty_fields (q : SearchFilter) :
    (∀ kv, kv ∈ buildSearchParams q → kv ∈ objectEntries q ∧ kv.2 ≠ "") ∧
    (∀ kv, kv ∈ objectEntries q → kv.2 ≠ "" → kv ∈ buildSearchParams q) ∧
    ((buildSearchParams q).map Prod.fst).Sublist searchFieldOrder ∧
    buildSearchParams emptyFilter = [] := by
  refine ⟨?_, ?_, ?_, rfl⟩
  · intro kv h
    rw [buildSearchParams, List.mem_filter] at h
    refine ⟨h.1, ?_⟩
    simpa using h.2
  · intro kv h hne
    rw [buildSearchParams, List.mem_filter]
    exact ⟨h, by simpa using hne⟩
  · have h :=
      (List.filter_sublist (l := objectEntries q)
        (p := fun p => !(p.2 == ""))).map Prod.fst
    simpa [objectEntries, searchFieldOrder] using h

/-- Witness for C1 at concrete filters: a filter with only `plate` set yields
that single parameter, and the all-empty filter yields no parameters. -/
theorem searchParams_exact_nonempty_fields_witness :
    ("plate", "KA01AB1234") ∈ buildSearchParams ⟨"", "", "", "", "KA01AB1234"⟩ ∧
    buildSearchParams emptyFilter = [] :=
  ⟨(searchParams_exact_nonempty_fields ⟨"", "", "", "", "KA01AB1234"⟩).2.1
      ("plate", "KA01AB1234") (by simp [objectEntries]) (by simp),
   (searchParams_exact_nonempty_fields emptyFilter).2.2.2⟩

/-- Claim C2: whenever the identity state has `isAuthenticated = false`, the
rendered UI is exactly the sign-in prompt: it contains no search/player
surface node, and no `Load` button, so the playback-load operation is not
reachable by an unauthenticated caller. -/
theorem unauthenticated_only_sign_in (auth : AuthIdentity) (st : PlayerState)
    (h : auth.isAuthenticated = false) :
    renderApp auth st = [.signInPrompt] ∧
    (∀ n, n ∈ renderApp auth st → isSearchSurface n = false) ∧
    loadTargets (renderApp auth st) = [] := by
  have hr : renderApp auth st = [.signInPrompt] := by
    simp [renderApp, renderPlayer, h]
  refine ⟨hr, ?_, ?_⟩
  · intro n hn
    rw [hr, List.mem_singleton] at hn
    subst hn
    rfl
  · rw [hr]
    rfl

/-- Witness for C2 at a concrete unauthenticated identity and the mount-time
player state. -/
theorem unauthenticated_only_sign_in_witness :
    renderApp ⟨false, none⟩ initialState = [.signInPrompt] ∧
    loadTargets (renderApp ⟨false, none⟩ initialState) = [] :=
  ⟨(unauthenticated_only_sign_in ⟨false, none⟩ initialState rfl).1,
   (unauthenticated_only_sign_in ⟨false, none⟩ initialState rfl).2.2⟩

/-- Counterexample to claim C3 as stated: the error payload whose `message`
field is present with value `""` does not surface `""`; the code's falsy
test (`err.message || err.error || ...`) lets an empty-string field fall
through to the generic search-failed message. -/
theorem search_error_empty_message_counterexample :
    jsField (.obj [("message", .str "")]) "message" = .str "" ∧
    (performSearch initialState
        (.err (some (.obj [("message", .str "")])))).2 = [.str "Search failed"] ∧
    Json.str "Search failed" ≠ Json.str "" :=
  ⟨rfl, rfl, by simp⟩

/-- Claim C3 as amended: for every non-success `/search` response, if the
parsed error payload has a truthy (in particular, non-empty-string)
`message` field it is surfaced; otherwise a truthy `error` field is
surfaced; otherwise — payload absent, fields absent or falsy — the generic
search-failed message is surfaced, except that a payload parsing to JSON
`null` faults the handler and surfaces the generic network-error message. -/
theorem search_error_surfaced_reason (st : PlayerState) (body : Option Json)
    (e : Json) (he : body.getD (.obj []) = e) :
    (jsTruthy (jsField e "message") = true →
        (performSearch st (.err body)).2 = [jsField e "message"]) ∧
    (jsTruthy (jsField e "message") = false →
      jsTruthy (jsField e "error") = true →
        (performSearch st (.err body)).2 = [jsField e "error"]) ∧
    (jsTruthy (jsField e "message") = false →
      jsTruthy (jsField e "error") = false → e ≠ .null →
        (performSearch st (.err body)).2 = [.str "Search failed"]) ∧
    (e = .null → (performSearch st (.err body)).2 = [.str "Network error"]) := by
  simp only [performSearch, he]
  cases e with
  | null => simp [jsField, jsTruthy]
  | _ =>
      refine ⟨fun h1 => ?_, fun h1 h2 => ?_, fun h1 h2 _ => ?_, fun h => by simp at h⟩ <;>
        simp [jsOr, h1]
      · simp [h2]
      · simp [h2]

/-- Witness for C3 (amended) at the spec's own example payload: the error
body with message `"bad date"` surfaces exactly `"bad date"`. -/
theorem search_error_surfaced_reason_witness :
    (performSearch initialState
        (.err (some (.obj [("message", .str "bad date")])))).2 = [.str "bad date"] :=
  (search_error_surfaced_reason initialState
      (some (.obj [("message", .str "bad date")]))
      (.obj [("message", .str "bad date")]) rfl).1 rfl

/-- Claim C4: a success `/search` response whose parsed payload is not an
array sets the result set to empty and surfaces no alert. -/
theorem search_nonarray_payload_empty_results (st : PlayerState) (j : Json)
    (h : ∀ xs, j ≠ .arr xs) :
    performSearch st (.ok (some j)) = ({ st with searchResults := [] }, []) := by
  cases j with
  | arr xs => exact absurd rfl (h xs)
  | _ => rfl

/-- Witness for C4 at the spec's own example payload: the empty object. -/
theorem search_nonarray_payload_empty_results_witness :
    performSearch initialState (.ok (some (.obj []))) =
      ({ initialState with searchResults := [] }, []) :=
  search_nonarray_payload_empty_results initialState (.obj [])
    (fun _ h => Json.noConfusion h)

/-- Counterexample to claim C5 as stated: a backend error payload whose
`message` field is itself `"Network error"` surfaces a reason equal to the
one surfaced on a transport failure, so the network-error message is not
"never equal to a backend-reported error message". -/
theorem network_error_collision_counterexample :
    (performSearch initialState
        (.err (some (.obj [("message", .str "Network error")])))).2 =
      (performSearch initialState .networkFailure).2 := rfl

/-- Claim C5 as amended: every transport-level failure during search
submission or video load surfaces the fixed generic message
`"Network error"`, which differs from the generic backend-failure fallback
messages (`"Search failed"`, `"Failed to load video"`); it is not
guaranteed to differ from a backend-reported message, which can itself be
the string `"Network error"`. -/
theorem transport_failure_generic_reason (st : PlayerState) :
    (performSearch st .networkFailure).2 = [.str "Network error"] ∧
    (loadVideo st .networkFailure).2 = [.str "Network error"] ∧
    Json.str "Network error" ≠ Json.str "Search failed" ∧
    Json.str "Network error" ≠ Json.str "Failed to load video" :=
  ⟨rfl, rfl, by simp, by simp⟩

/-- Witness for C5 (amended) at the mount-time state. -/
theorem transport_failure_generic_reason_witness :
    (performSearch initialState .networkFailure).2 = [.str "Network error"] ∧
    (loadVideo initialState .networkFailure).2 = [.str "Network error"] :=
  ⟨(transport_failure_generic_reason initialState).1,
   (transport_failure_generic_reason initialState).2.1⟩

/-- Claim C6: a success `/search` response whose parsed payload is an array
makes the result set equal to that array, element for element in the same
order, fully replacing the previous result set (no merge or append), with
no alert. -/
theorem search_success_replaces_results (st : PlayerState) (xs : List Json) :
    performSearch st (.ok (some (.arr xs))) =
      ({ st with searchResults := xs }, []) := rfl

/-- Claim C7: every failing search submission and every failing video load —
backend error response, transport failure, or a body that fails to read —
leaves the component state (result set, playback session, query) exactly as
it was; state is replaced only on a confirmed success. -/
theorem failure_preserves_state (st : PlayerState) (b : Option Json) (t : String) :
    (performSearch st (.err b)).1 = st ∧
    (performSearch st (.ok none)).1 = st ∧
    (performSearch st .networkFailure).1 = st ∧
    (loadVideo st (.err t)).1 = st ∧
    (loadVideo st .networkFailure).1 = st ∧
    (loadVideo st .okBlobFail).1 = st := by
  refine ⟨?_, rfl, rfl, rfl, rfl, rfl⟩
  cases h : b.getD (.obj []) <;> simp [performSearch, h]

/-- Claim C8: a non-success response from the video-load endpoint surfaces
the response body text verbatim when it is non-empty, and the generic
failed-to-load-video message when the body text is empty. -/
theorem video_error_surfaces_body_text (st : PlayerState) (t : String) :
    (t ≠ "" → (loadVideo st (.err t)).2 = [.str t]) ∧
    (t = "" → (loadVideo st (.err t)).2 = [.str "Failed to load video"]) := by
  constructor
  · intro h
    simp [loadVideo, h]
  · intro h
    simp [loadVideo, h]

/-- Witness for C8 at a concrete non-empty and the empty body text. -/
theorem video_error_surfaces_body_text_witness :
    (loadVideo initialState (.err "decryption key missing")).2 =
        [.str "decryption key missing"] ∧
    (loadVideo initialState (.err "")).2 = [.str "Failed to load video"] :=
  ⟨(video_error_surfaces_body_text initialState "decryption key missing").1
      (by simp),
   (video_error_surfaces_body_text initialState "").2 rfl⟩

/-- Counterexample to claim C9 as stated: on a paused media element with no
source bound, `playPause` is not a no-op that issues no command — it issues
a play command, because the handler has no source-bound guard. -/
theorem playPause_no_source_counterexample :
    (playPause ⟨true, false, 0⟩).2 = [MediaCmd.play] ∧
    [MediaCmd.play] ≠ ([] : List MediaCmd) :=
  ⟨rfl, by simp⟩

/-- Claim C9 as amended: `playPause`, in any state of the media element,
issues a play command when the element is paused (starting playback when a
source is bound, and leaving the element unchanged when none is) and issues
a pause command otherwise, pausing playback; it performs no source-bound
check, so with no source bound it still issues the play command even though
the element state does not change. -/
theorem playPause_toggle (v : MediaElement) :
    (v.paused = true →
        (playPause v).2 = [.play] ∧
        (v.hasSource = true → (playPause v).1.paused = false) ∧
        (v.hasSource = false → (playPause v).1 = v)) ∧
    (v.paused = false →
        (playPause v).2 = [.pause] ∧ (playPause v).1.paused = true) := by
  constructor
  · intro h
    refine ⟨by simp [playPause, h], ?_, ?_⟩ <;>
      intro hs <;> simp [playPause, h, applyPlay, hs]
  · intro h
    simp [playPause, h, applyPause]

/-- Witness for C9 (amended) at concrete elements: a paused element with a
source starts playing; a playing element is paused. -/
theorem playPause_toggle_witness :
    (playPause ⟨true, true, 0⟩).2 = [MediaCmd.play] ∧
    (playPause ⟨false, true, 0⟩).1.paused = true :=
  ⟨((playPause_toggle ⟨true, true, 0⟩).1 rfl).1,
   ((playPause_toggle ⟨false, true, 0⟩).2 rfl).2⟩

/-- Claim C10: a success `/search` response whose body fails to parse as
JSON at all surfaces the generic network-error message (via the outer
catch) and leaves the result set — and the whole state — unchanged, rather
than defaulting it to empty. -/
theorem search_ok_parse_failure_keeps_results (st : PlayerState) :
    performSearch st (.ok none) = (st, [.str "Network error"]) := rfl

end Electroverse
